import Mathlib

/-!
Shallow embedding of the darkroom-frontend single-page application
(src/index.tsx and the unnamed KeywordGenerator component) and proofs of
the specification's testable properties.

React event handlers are embedded as pure state-transition functions: the
component's hook state becomes a structure, each asynchronous request
outcome (success payload, backend rejection, network error) becomes a
constructor of an outcome type supplied as an argument, and each handler
returns the post-handler state together with a Boolean recording whether a
network / AI-API request was issued during the call.
-/

namespace Darkroom

/-! ## Data model (src/index.tsx lines 8-26) -/

/-- `type User = { username: string; connectedAccounts: Record<string, boolean> }`.
The `Record` is embedded as an association list, preserving JavaScript
object key order. -/
structure User where
  username : String
  connectedAccounts : List (String × Bool)
  deriving DecidableEq, Repr

/-- `type Video = { id, title, description, platforms, timestamp }`
(src/index.tsx lines 13-19). -/
structure Video where
  id : Nat
  title : String
  description : String
  platforms : List String
  timestamp : String
  deriving DecidableEq, Repr

/-! ## Generator view (src/index.tsx lines 109-252) -/

/-- JavaScript `String.prototype.trim()`: removes leading and trailing
whitespace. Embedded over the character list so that it evaluates inside
the kernel. -/
def jsTrim (s : String) : String :=
  ⟨((s.data.dropWhile Char.isWhitespace).reverse.dropWhile Char.isWhitespace).reverse⟩

/-- Hook state of `GeneratorView` (src/index.tsx lines 110-114):
`keywords`, `characterUrl`, `story`, `loading`, `error`. -/
structure GenState where
  keywords : String
  characterUrl : String
  story : String
  loading : Bool
  error : String
  deriving DecidableEq, Repr

/-- Outcome of the `ai.models.generateContent` call: either the response
text, or a thrown error carrying a message (network or API failure). -/
inductive AIOutcome where
  | ok (text : String)
  | apiError (msg : String)
  deriving DecidableEq, Repr

/-- `generateStory` (src/index.tsx lines 141-216). The guard
`if (!keywords.trim())` sets the validation error and returns before
`setLoading(true)` and before any request. Otherwise the handler sets
`loading := true`, clears `story` and `error`, issues the AI request
(the returned Boolean), and on success stores the markdown rendered to
HTML (`marked.parse`, an external renderer passed in as `parse`); on a
thrown error the `catch` stores the localized message and the `finally`
clears `loading` in every case. -/
def generateStory (parse : String → String) (s : GenState) (o : AIOutcome) :
    GenState × Bool :=
  if jsTrim s.keywords = "" then
    ({ s with error := "请输入至少一个关键词。" }, false)
  else
    let s1 := { s with loading := true, story := "", error := "" }
    match o with
    | .ok text => ({ s1 with story := parse text, loading := false }, true)
    | .apiError m =>
        ({ s1 with error := "生成失败: " ++ m, loading := false }, true)

/-- Hook state of the unnamed `KeywordGenerator` component
(src/unnamed/part_000 lines 509-512). -/
structure KGState where
  keywords : String
  generatedContent : String
  isLoading : Bool
  error : Option String
  deriving DecidableEq, Repr

/-- `KeywordGenerator.handleGenerate` (src/unnamed/part_000 lines 514-549):
same guard shape as `generateStory`, with `error : Option String` and its
own message strings; `finally` clears `isLoading`. -/
def handleGenerate (s : KGState) (o : AIOutcome) : KGState × Bool :=
  if jsTrim s.keywords = "" then
    ({ s with error := some "请输入关键词。" }, false)
  else
    let s1 := { s with isLoading := true, error := none, generatedContent := "" }
    match o with
    | .ok text => ({ s1 with generatedContent := text, isLoading := false }, true)
    | .apiError m =>
        ({ s1 with error := some ("生成内容时出错： " ++ m), isLoading := false }, true)

/-! ## Login view (src/index.tsx lines 263-294) -/

/-- Outcome of the `POST /login` request (src/index.tsx lines 271-276):
the parsed response body `{success, user|message}` or a thrown network
error carrying a message. -/
inductive LoginOutcome where
  | ok (u : User)
  | rejected (msg : String)
  | networkError (msg : String)
  deriving DecidableEq, Repr

/-- `LoginView.handleLogin` (src/index.tsx lines 268-282). Input: the
current active user (the `App`-level `user` value) and the request outcome.
Output: the active user after the handler and the displayed error string.
`setError('')` runs first; on `success` the handler calls
`setUser(data.user)`; on `success=false` it throws `new Error(data.message)`
and the `catch` runs `setError(e.message || '登录失败，请检查后端连接。')`,
so an empty backend message falls back to the fixed localized message (an
`Error` built from an empty string has an empty `message`). -/
def handleLogin (user0 : Option User) (o : LoginOutcome) :
    Option User × String :=
  match o with
  | .ok u => (some u, "")
  | .rejected m => (user0, if m = "" then "登录失败，请检查后端连接。" else m)
  | .networkError m => (user0, if m = "" then "登录失败，请检查后端连接。" else m)

/-! ## Dashboard view (src/index.tsx lines 297-429) -/

/-- The optimistic toggle `{ ...prev, [platform]: !prev[platform] }`
(src/index.tsx line 327) on the `connectedAccounts` object: an existing key
keeps its position and is negated; a missing key reads `undefined`
(falsy), so `!prev[platform]` is `true` and the key is appended. -/
def toggleAccount : List (String × Bool) → String → List (String × Bool)
  | [], p => [(p, true)]
  | (k, v) :: rest, p =>
      if k = p then (k, !v) :: rest else (k, v) :: toggleAccount rest p

/-- Outcome of the `POST /connect/:platform` request
(src/index.tsx lines 329-334). -/
inductive ConnectOutcome where
  | ok
  | rejected
  | networkError
  deriving DecidableEq, Repr

/-- `DashboardView.handleConnect` (src/index.tsx lines 325-341): saves
`originalAccounts`, applies the optimistic toggle, then on `success=false`
or a thrown network error restores `originalAccounts`. Returns the mapping
displayed during the in-flight request and the final mapping. -/
def handleConnect (accounts : List (String × Bool)) (platform : String)
    (o : ConnectOutcome) : List (String × Bool) × List (String × Bool) :=
  let originalAccounts := accounts
  let optimistic := toggleAccount accounts platform
  match o with
  | .ok => (optimistic, optimistic)
  | .rejected => (optimistic, originalAccounts)
  | .networkError => (optimistic, originalAccounts)

/-- Hook state of `DashboardView` (src/index.tsx lines 298-306). The
selected file is embedded by its name (`File | null` becomes
`Option String`). -/
structure DashState where
  connectedAccounts : List (String × Bool)
  publishedVideos : List Video
  title : String
  description : String
  file : Option String
  isPublishing : Bool
  publishSuccess : Bool
  publishError : String
  deriving DecidableEq, Repr

/-- Outcome of the `POST /publish` request (src/index.tsx lines 359-366):
`{success:true, videos}` or `{success:false, message}` or a thrown network
error carrying a message. -/
inductive PublishOutcome where
  | ok (videos : List Video)
  | rejected (msg : String)
  | networkError (msg : String)
  deriving DecidableEq, Repr

/-- The `disabled` prop of the publish button
(src/index.tsx line 402): `!title || !file || isPublishing`. -/
def publishDisabled (title : String) (file : Option String)
    (isPublishing : Bool) : Bool :=
  title = "" || file = none || isPublishing

/-- `DashboardView.handlePublish` (src/index.tsx lines 343-383). The guard
`if (!title || !file) return` exits before any state change or request.
Past the guard the handler sets `isPublishing := true`, resets
`publishSuccess` and `publishError`, sends the multipart request (the
returned Boolean), and then: on `success` replaces the video list with the
backend's list, clears `title`, `description` and `file`, and sets
`publishSuccess`; on `success=false` it throws
`new Error(data.message || '发布失败，请稍后重试。')` and the `catch` stores
`error.message`; on a network error the `catch` stores the thrown message.
`setIsPublishing(false)` runs after the try/catch in every case. (The
3-second auto-dismiss of `publishSuccess` is outside this handler.) -/
def handlePublish (s : DashState) (o : PublishOutcome) : DashState × Bool :=
  if s.title = "" ∨ s.file = none then (s, false)
  else
    let s1 := { s with isPublishing := true, publishSuccess := false,
                       publishError := "" }
    match o with
    | .ok videos =>
        ({ s1 with publishedVideos := videos, title := "", description := "",
                   file := none, publishSuccess := true,
                   isPublishing := false }, true)
    | .rejected m =>
        ({ s1 with publishError := if m = "" then "发布失败，请稍后重试。" else m,
                   isPublishing := false }, true)
    | .networkError m =>
        ({ s1 with publishError := m, isPublishing := false }, true)

/-! ## Rendered-output augmentation (src/index.tsx lines 117-139)

The rendered generation output is modeled as the flat list of top-level
elements produced by the markdown renderer (in the prompt template the
blockquotes are sibling top-level blocks). -/

/-- A rendered DOM element: a `<blockquote>` with its descendants, the
inserted `div.copy-prompt-btn-wrapper` with its descendants, a
`button.copy-prompt-btn`, or any other element. -/
inductive Elem where
  | blockquote (inner : List Elem)
  | wrapper (inner : List Elem)
  | copyBtn
  | other

mutual

/-- `e.querySelector('.copy-prompt-btn') !== null` restricted to the
element and its descendants. -/
def hasBtnElem : Elem → Bool
  | .blockquote inner => hasBtnList inner
  | .wrapper inner => hasBtnList inner
  | .copyBtn => true
  | .other => false

/-- Whether any element of the list or its descendants has class
`copy-prompt-btn`. -/
def hasBtnList : List Elem → Bool
  | [] => false
  | e :: es => hasBtnElem e || hasBtnList es

end

/-- One run of the augmentation `useEffect` body
(src/index.tsx lines 118-137): for each `blockquote`, if
`bq.querySelector('.copy-prompt-btn')` finds a button among the
blockquote's descendants the block is skipped (the code comment reads
`// Avoid adding duplicate buttons`); otherwise a
`div.copy-prompt-btn-wrapper` containing the `button.copy-prompt-btn` is
inserted as the blockquote's next sibling
(`bq.insertAdjacentElement('afterend', wrapper)`). -/
def augmentOnce : List Elem → List Elem
  | [] => []
  | .blockquote inner :: rest =>
      if hasBtnList inner then .blockquote inner :: augmentOnce rest
      else .blockquote inner :: .wrapper [.copyBtn] :: augmentOnce rest
  | .wrapper inner :: rest => .wrapper inner :: augmentOnce rest
  | .copyBtn :: rest => .copyBtn :: augmentOnce rest
  | .other :: rest => .other :: augmentOnce rest

/-! ## View router (src/index.tsx lines 59-70, 255-260) -/

/-- `type View = 'generator' | 'distributor' | 'analytics'`
(src/index.tsx line 8). -/
inductive View where
  | generator
  | distributor
  | analytics
  deriving DecidableEq, Repr

/-- The screen a render resolves to. `AnalyticsView` and `DashboardView`
carry the (non-null) user they receive as a prop. -/
inductive Rendered where
  | generatorView
  | loginView
  | dashboardView (u : User)
  | analyticsView (u : User)
  deriving DecidableEq, Repr

/-- `DistributorView` (src/index.tsx lines 255-260): with no user it
renders `LoginView`, otherwise `DashboardView` for that user. -/
def distributorView (user : Option User) : Rendered :=
  match user with
  | none => .loginView
  | some u => .dashboardView u

/-- `App.renderView` (src/index.tsx lines 59-70): the `analytics` case is
`user ? <AnalyticsView user={user}/> : <DistributorView .../>`. -/
def renderView (view : View) (user : Option User) : Rendered :=
  match view with
  | .generator => .generatorView
  | .distributor => distributorView user
  | .analytics =>
      match user with
      | some u => .analyticsView u
      | none => distributorView user

/-- The analytics request URL (src/index.tsx line 441):
`${API_BASE_URL}/analytics/${user.username}`; it takes a `User`, never a
null value. -/
def analyticsUrl (apiBase : String) (u : User) : String :=
  apiBase ++ "/analytics/" ++ u.username

/-! ## Analytics view (src/index.tsx lines 433-501) -/

/-- A JavaScript number as produced by the bar-width arithmetic: a finite
value (embedded as a rational, the inputs being finite backend scores) or
one of the IEEE special values `Infinity`, `-Infinity`, `NaN`. -/
inductive JSNum where
  | fin (q : ℚ)
  | posInf
  | negInf
  | nan
  deriving DecidableEq, Repr

/-- JavaScript division of finite numbers: division by zero produces
`NaN` for a zero numerator and a signed infinity otherwise. -/
def jsDiv (a b : ℚ) : JSNum :=
  if b = 0 then
    if a = 0 then .nan else if 0 < a then .posInf else .negInf
  else .fin (a / b)

/-- Multiplication of the quotient by the literal `100`
(src/index.tsx line 478); the special values are absorbing. -/
def JSNum.mul100 : JSNum → JSNum
  | .fin q => .fin (q * 100)
  | .posInf => .posInf
  | .negInf => .negInf
  | .nan => .nan

/-- `Math.max(...Object.values(data.platformPerformance).map(Number))`
(src/index.tsx line 457): the pairwise maximum of the platform scores,
`-Infinity` on an empty mapping. -/
def maxPerfValue : List ℚ → JSNum
  | [] => .negInf
  | q :: qs => .fin (qs.foldl max q)

/-- The width of one platform's bar (src/index.tsx line 478):
`maxPerfValue > 0 ? (Number(value) / maxPerfValue) * 100 : 0` (suffixed
with `%` in the style string). A non-finite maximum never satisfies
`> 0` here because `maxPerfValue` of finite scores is finite or
`-Infinity`. -/
def barWidth (vals : List ℚ) (v : ℚ) : JSNum :=
  match maxPerfValue vals with
  | .fin m => if 0 < m then (jsDiv v m).mul100 else .fin 0
  | .posInf => (jsDiv v 0).mul100
  | .negInf => .fin 0
  | .nan => .fin 0

/-! ## Copy-control label timing (src/index.tsx lines 129-133)

The click handler sets the button label to `已复制!` and schedules
`setTimeout(() => { button.innerText = '复制提示'; }, 2000)` without ever
cancelling a previously scheduled timer. Time is modeled in milliseconds;
`labelAt clicks T` replays, tick by tick from 0 to `T`, the click events
and the pending timer expirations (a timer due in the same tick as a
click fires before the click handler runs, so the click's label write is
the later one). -/

/-- The label written by the click handler (src/index.tsx line 131). -/
def copiedLabel : String := "已复制!"

/-- The default label, restored by the timer (src/index.tsx lines 127
and 132). -/
def defaultLabel : String := "复制提示"

/-- One millisecond tick `t`: a click at `t` writes `已复制!` (last write
in the tick); otherwise a timer scheduled by a click at `t - 2000` writes
`复制提示`; otherwise the label is unchanged. -/
def labelStep (clicks : List ℕ) (label : String) (t : ℕ) : String :=
  if t ∈ clicks then copiedLabel
  else if ∃ c ∈ clicks, c + 2000 = t then defaultLabel
  else label

/-- The label shown at time `T`, starting from the default label the
button was created with and replaying every tick `0, 1, …, T`. -/
def labelAt (clicks : List ℕ) (T : ℕ) : String :=
  (List.range (T + 1)).foldl (labelStep clicks) defaultLabel

end Darkroom

namespace Darkroom

/-- C2: For every keyword input that is empty or consists only of
whitespace, invoking script generation (in either generator component) sets
a locally displayed error message and returns without making any network or
AI-API call, and without setting the loading flag: every other state field,
`loading` included, is left exactly as it was. -/
theorem generateStory_rejects_blank_keywords
    (parse : String → String) (s : GenState) (ks : KGState)
    (o o' : AIOutcome)
    (h : jsTrim s.keywords = "") (h' : jsTrim ks.keywords = "") :
    generateStory parse s o = ({ s with error := "请输入至少一个关键词。" }, false) ∧
    handleGenerate ks o' = ({ ks with error := some "请输入关键词。" }, false) := by
  constructor
  · simp [generateStory, h]
  · simp [handleGenerate, h']

/-- Concrete instance of C2: whitespace-only keywords `"  "` are rejected
by both components with the validation message, no request, and the
loading flag untouched. -/
theorem generateStory_rejects_blank_keywords_witness :
    generateStory id ⟨"  ", "", "", false, ""⟩ (.ok "t") =
      (⟨"  ", "", "", false, "请输入至少一个关键词。"⟩, false) ∧
    handleGenerate ⟨" ", "", false, none⟩ (.ok "t") =
      (⟨" ", "", false, some "请输入关键词。"⟩, false) :=
  generateStory_rejects_blank_keywords id ⟨"  ", "", "", false, ""⟩
    ⟨" ", "", false, none⟩ (.ok "t") (.ok "t") (by decide) (by decide)

/-- C6: For every outcome of a script-generation attempt that entered the
request phase (non-blank keywords, so the AI call was issued), the loading
flag is cleared when the attempt finishes, and a thrown error is caught and
surfaced as the user-facing error string `生成失败: <message>` rather than
propagating (the handler is total and returns a state in every case). -/
theorem generateStory_clears_loading
    (parse : String → String) (s : GenState) (o : AIOutcome)
    (h : jsTrim s.keywords ≠ "") :
    (generateStory parse s o).2 = true ∧
    (generateStory parse s o).1.loading = false ∧
    ∀ m, o = .apiError m →
      (generateStory parse s o).1.error = "生成失败: " ++ m := by
  cases o <;> simp [generateStory, h]

/-- Concrete instance of C6: with keywords `"旧娃娃"` and a failing API
call, the loading flag ends cleared and the localized error is shown. -/
theorem generateStory_clears_loading_witness :
    (generateStory id ⟨"旧娃娃", "", "", false, ""⟩ (.apiError "boom")).2 = true ∧
    (generateStory id ⟨"旧娃娃", "", "", false, ""⟩ (.apiError "boom")).1.loading = false ∧
    ∀ m, (AIOutcome.apiError "boom" : AIOutcome) = .apiError m →
      (generateStory id ⟨"旧娃娃", "", "", false, ""⟩ (.apiError "boom")).1.error =
        "生成失败: " ++ m :=
  generateStory_clears_loading id ⟨"旧娃娃", "", "", false, ""⟩
    (.apiError "boom") (by decide)

/-- C3: For every platform-toggle action that ends in failure (network
error, or a backend response with `success=false`), the displayed
connection mapping after the rollback equals the mapping that held
immediately before the click, and the toggle was first applied
optimistically (the in-flight display is the toggled mapping). -/
theorem handleConnect_rollback_exact
    (accounts : List (String × Bool)) (platform : String)
    (o : ConnectOutcome) (h : o ≠ .ok) :
    (handleConnect accounts platform o).2 = accounts ∧
    (handleConnect accounts platform o).1 = toggleAccount accounts platform := by
  cases o
  · exact absurd rfl h
  · exact ⟨rfl, rfl⟩
  · exact ⟨rfl, rfl⟩

/-- Concrete instance of C3: toggling `douyin` with a backend rejection
rolls the mapping back to exactly its pre-click value, after having
displayed the optimistic toggle. -/
theorem handleConnect_rollback_exact_witness :
    (handleConnect [("douyin", false), ("bilibili", true)] "douyin" .rejected).2 =
      [("douyin", false), ("bilibili", true)] ∧
    (handleConnect [("douyin", false), ("bilibili", true)] "douyin" .rejected).1 =
      toggleAccount [("douyin", false), ("bilibili", true)] "douyin" :=
  handleConnect_rollback_exact [("douyin", false), ("bilibili", true)]
    "douyin" .rejected (by decide)

/-- C8 counterexample: a login answered with `success=false` and an empty
backend message string displays the fixed fallback message
`登录失败，请检查后端连接。`, not the backend's (empty) message string, because
the catch runs `setError(e.message || fallback)`. -/
theorem handleLogin_empty_message_fallback :
    (handleLogin none (.rejected "")).2 ≠ "" ∧
    (handleLogin none (.rejected "")).2 = "登录失败，请检查后端连接。" := by
  constructor
  · simp [handleLogin]
  · rfl

/-- C8 (amended): For every login attempt answered by the backend with
`success=false`, the UI displays the backend's message string when it is
nonempty (and a fixed fallback message when it is empty), and the
active-user value remains unset; the active user is set only when the
backend answers with `success=true`. -/
theorem handleLogin_failure_no_user
    (m : String) (hm : m ≠ "") :
    (handleLogin none (.rejected m)).2 = m ∧
    (handleLogin none (.rejected m)).1 = none ∧
    (handleLogin none (.networkError m)).1 = none ∧
    ∀ u, (handleLogin none (.ok u)).1 = some u := by
  refine ⟨?_, rfl, rfl, fun u => rfl⟩
  simp [handleLogin, hm]

/-- Concrete instance of the amended C8: a wrong-password rejection with
message `用户名或密码错误` is displayed verbatim and leaves the user unset. -/
theorem handleLogin_failure_no_user_witness :
    (handleLogin none (.rejected "用户名或密码错误")).2 = "用户名或密码错误" ∧
    (handleLogin none (.rejected "用户名或密码错误")).1 = none ∧
    (handleLogin none (.networkError "用户名或密码错误")).1 = none ∧
    ∀ u, (handleLogin none (.ok u)).1 = some u :=
  handleLogin_failure_no_user "用户名或密码错误" (by decide)

/-- C4 counterexample: in the state with a non-empty title, a selected
file, and a publish already in flight (`isPublishing = true`), the claim
asserts the handler is a no-op; in the code the guard
`if (!title || !file) return` does not test `isPublishing`, so the handler
proceeds: it issues a network request (second conjunct) and mutates state
(it resets `publishSuccess`). Only the button's `disabled` prop covers the
in-flight case (first conjunct). -/
theorem handlePublish_inflight_not_noop :
    publishDisabled "标题" (some "v.mp4") true = true ∧
    (handlePublish ⟨[], [], "标题", "", some "v.mp4", true, true, ""⟩
      (.rejected "err")).2 = true ∧
    (handlePublish ⟨[], [], "标题", "", some "v.mp4", true, true, ""⟩
      (.rejected "err")).1.publishSuccess = false := by
  refine ⟨rfl, ?_, ?_⟩ <;> simp [handlePublish]

/-- C4 (amended): The publish button is disabled exactly when the title is
empty, no file is selected, or a publish is already in flight, and enabled
in every other state; the handler itself is a no-op (state unchanged, no
request) when the title is empty or no file is selected, but it has no
in-flight guard of its own — that case is prevented only by the disabled
control. -/
theorem publishDisabled_iff
    (title : String) (file : Option String) (pub : Bool)
    (s : DashState) (o : PublishOutcome) :
    (publishDisabled title file pub = true ↔
      (title = "" ∨ file = none ∨ pub = true)) ∧
    (s.title = "" ∨ s.file = none → handlePublish s o = (s, false)) := by
  constructor
  · simp [publishDisabled, or_assoc]
  · intro h
    simp [handlePublish, h]

/-- Concrete instance of the amended C4: with a non-empty title but no
selected file the button is disabled and the handler leaves the state
untouched without a request; with title, file, and no publish in flight
the button is enabled. -/
theorem publishDisabled_iff_witness :
    (publishDisabled "标题" none false = true ↔
      (("标题" : String) = "" ∨ (none : Option String) = none ∨ false = true)) ∧
    handlePublish ⟨[], [], "标题", "", none, false, false, ""⟩ (.ok []) =
      (⟨[], [], "标题", "", none, false, false, ""⟩, false) :=
  ⟨(publishDisabled_iff "标题" none false
      ⟨[], [], "标题", "", none, false, false, ""⟩ (.ok [])).1,
   (publishDisabled_iff "标题" none false
      ⟨[], [], "标题", "", none, false, false, ""⟩ (.ok [])).2 (Or.inr rfl)⟩

/-- C9: For every publish attempt that entered the request phase and
failed (network error or backend `success=false`), the title, description,
and selected-file state are left unchanged and the local video list is not
replaced; these fields are cleared, and the list replaced by the backend's
list, exactly on a successful publish. -/
theorem handlePublish_failure_frame
    (s : DashState) (vs : List Video) (m m' : String)
    (ht : s.title ≠ "") (hf : s.file ≠ none) :
    ((handlePublish s (.rejected m)).1.title = s.title ∧
     (handlePublish s (.rejected m)).1.description = s.description ∧
     (handlePublish s (.rejected m)).1.file = s.file ∧
     (handlePublish s (.rejected m)).1.publishedVideos = s.publishedVideos) ∧
    ((handlePublish s (.networkError m')).1.title = s.title ∧
     (handlePublish s (.networkError m')).1.description = s.description ∧
     (handlePublish s (.networkError m')).1.file = s.file ∧
     (handlePublish s (.networkError m')).1.publishedVideos = s.publishedVideos) ∧
    ((handlePublish s (.ok vs)).1.title = "" ∧
     (handlePublish s (.ok vs)).1.description = "" ∧
     (handlePublish s (.ok vs)).1.file = none ∧
     (handlePublish s (.ok vs)).1.publishedVideos = vs) := by
  simp [handlePublish, ht, hf]

/-- Concrete instance of C9: a rejected publish keeps the form fields and
video list; a successful one clears the form and installs the backend's
list. -/
theorem handlePublish_failure_frame_witness :
    ((handlePublish ⟨[("douyin", true)], [], "标题", "描述", some "v.mp4",
        false, false, ""⟩ (.rejected "err")).1.title = "标题" ∧
     (handlePublish ⟨[("douyin", true)], [], "标题", "描述", some "v.mp4",
        false, false, ""⟩ (.rejected "err")).1.description = "描述" ∧
     (handlePublish ⟨[("douyin", true)], [], "标题", "描述", some "v.mp4",
        false, false, ""⟩ (.rejected "err")).1.file = some "v.mp4" ∧
     (handlePublish ⟨[("douyin", true)], [], "标题", "描述", some "v.mp4",
        false, false, ""⟩ (.rejected "err")).1.publishedVideos = []) ∧
    ((handlePublish ⟨[("douyin", true)], [], "标题", "描述", some "v.mp4",
        false, false, ""⟩ (.networkError "net")).1.title = "标题" ∧
     (handlePublish ⟨[("douyin", true)], [], "标题", "描述", some "v.mp4",
        false, false, ""⟩ (.networkError "net")).1.description = "描述" ∧
     (handlePublish ⟨[("douyin", true)], [], "标题", "描述", some "v.mp4",
        false, false, ""⟩ (.networkError "net")).1.file = some "v.mp4" ∧
     (handlePublish ⟨[("douyin", true)], [], "标题", "描述", some "v.mp4",
        false, false, ""⟩ (.networkError "net")).1.publishedVideos = []) ∧
    ((handlePublish ⟨[("douyin", true)], [], "标题", "描述", some "v.mp4",
        false, false, ""⟩ (.ok [⟨1, "t", "d", ["douyin"], "now"⟩])).1.title = "" ∧
     (handlePublish ⟨[("douyin", true)], [], "标题", "描述", some "v.mp4",
        false, false, ""⟩ (.ok [⟨1, "t", "d", ["douyin"], "now"⟩])).1.description = "" ∧
     (handlePublish ⟨[("douyin", true)], [], "标题", "描述", some "v.mp4",
        false, false, ""⟩ (.ok [⟨1, "t", "d", ["douyin"], "now"⟩])).1.file = none ∧
     (handlePublish ⟨[("douyin", true)], [], "标题", "描述", some "v.mp4",
        false, false, ""⟩ (.ok [⟨1, "t", "d", ["douyin"], "now"⟩])).1.publishedVideos =
       [⟨1, "t", "d", ["douyin"], "now"⟩]) :=
  handlePublish_failure_frame
    ⟨[("douyin", true)], [], "标题", "描述", some "v.mp4", false, false, ""⟩
    [⟨1, "t", "d", ["douyin"], "now"⟩] "err" "net" (by decide) (by decide)

/-- C1: on a fresh render the scan attaches exactly one copy control to a
blockquote, but running the scan again over the output it has already
augmented attaches a second, duplicate control, because the skip check
`bq.querySelector('.copy-prompt-btn')` searches the blockquote's
descendants while the control was inserted as the blockquote's next
sibling, so the check never finds it. This contradicts the code's own
comment `// Avoid adding duplicate buttons` and the spec's idempotence
requirement. -/
theorem augment_scan_not_idempotent :
    augmentOnce [Elem.blockquote [Elem.other]] =
      [Elem.blockquote [Elem.other], Elem.wrapper [Elem.copyBtn]] ∧
    augmentOnce (augmentOnce [Elem.blockquote [Elem.other]]) =
      [Elem.blockquote [Elem.other], Elem.wrapper [Elem.copyBtn],
       Elem.wrapper [Elem.copyBtn]] := by
  constructor <;> rfl

/-- C10: whenever the selected view is `analytics` but no user is logged
in, the application renders the distributor/login screen instead of the
analytics screen, and the analytics screen (whose effect fetches
`analyticsUrl`, interpolating `user.username`) is only ever rendered with
a non-null authenticated user. -/
theorem renderView_analytics_requires_user :
    renderView .analytics none = .loginView ∧
    ∀ (v : View) (user : Option User) (u : User),
      renderView v user = .analyticsView u → user = some u := by
  refine ⟨rfl, ?_⟩
  intro v user u h
  cases v <;> cases user <;> simp_all [renderView, distributorView]

/-- Concrete instance of C10: the only way `renderView` yields the
analytics screen for the demo user is with that user logged in. -/
theorem renderView_analytics_requires_user_witness :
    (some (⟨"creator", [("douyin", true)]⟩ : User)) =
      some ⟨"creator", [("douyin", true)]⟩ :=
  renderView_analytics_requires_user.2 .analytics
    (some ⟨"creator", [("douyin", true)]⟩) ⟨"creator", [("douyin", true)]⟩ rfl

/-- C5: For every `platformPerformance` mapping whose maximum value is
zero, every rendered bar width is exactly `0` (a finite zero, not `NaN`
or an infinity); for a positive (finite) maximum, each bar's width is the
platform's value divided by the maximum, times 100. -/
theorem barWidth_relative_to_max (vals : List ℚ) (v : ℚ) (hv : v ∈ vals) :
    (maxPerfValue vals = .fin 0 → barWidth vals v = .fin 0) ∧
    ∀ m : ℚ, maxPerfValue vals = .fin m → 0 < m →
      barWidth vals v = .fin (v / m * 100) := by
  constructor
  · intro h
    simp [barWidth, h]
  · intro m h hm
    simp [barWidth, h, hm, jsDiv, hm.ne', JSNum.mul100]

/-- Concrete instance of C5: the all-zero mapping `{a:0, b:0}` renders
both bars at width `0`, and a mapping with maximum `2` renders the value
`1` at width `50`. -/
theorem barWidth_relative_to_max_witness :
    barWidth [0, 0] 0 = .fin 0 ∧ barWidth [1, 2] 1 = .fin 50 := by
  constructor
  · exact (barWidth_relative_to_max [0, 0] 0 (by norm_num)).1 (by
      norm_num [maxPerfValue])
  · have h := (barWidth_relative_to_max [1, 2] 1 (by norm_num)).2 2 (by
      norm_num [maxPerfValue]) (by norm_num)
    rw [h]
    norm_num

/-- `labelAt` peeled at its final tick. -/
theorem labelAt_eq_step (clicks : List ℕ) (T : ℕ) :
    labelAt clicks T =
      labelStep clicks
        ((List.range T).foldl (labelStep clicks) defaultLabel) T := by
  simp [labelAt, List.range_succ]

/-- Once 2000 ms have elapsed since every click, the label is back to the
default: every scheduled reset has fired and no later write occurred. -/
theorem labelAt_after_resets (clicks : List ℕ) :
    ∀ T, (∀ c ∈ clicks, c + 2000 ≤ T) → labelAt clicks T = defaultLabel := by
  intro T
  induction T with
  | zero =>
      intro h
      have h1 : 0 ∉ clicks := fun hc => by have := h 0 hc; omega
      rw [labelAt_eq_step]
      simp [labelStep, h1]
  | succ T ih =>
      intro h
      have h1 : T + 1 ∉ clicks := fun hc => by have := h _ hc; omega
      rw [labelAt_eq_step]
      show labelStep clicks (labelAt clicks T) (T + 1) = defaultLabel
      by_cases hr : ∃ c ∈ clicks, c + 2000 = T + 1
      · rw [labelStep, if_neg h1, if_pos hr]
      · rw [labelStep, if_neg h1, if_neg hr]
        refine ih fun c hc => ?_
        have hle := h c hc
        have hne : c + 2000 ≠ T + 1 := fun he => hr ⟨c, hc, he⟩
        omega

/-- A tick with a click always ends showing the copied label: the click
handler's write is the last one in its tick. -/
theorem labelAt_click (clicks : List ℕ) (c : ℕ) (hc : c ∈ clicks) :
    labelAt clicks c = copiedLabel := by
  rw [labelAt_eq_step, labelStep, if_pos hc]

/-- C7: for every sequence of clicks on a single copy control, each click
sets the label to the `已复制!` acknowledgment, and once the fixed
2-second interval has elapsed after every click (in particular 2 seconds
after the last click, even when clicks occur less than 2 seconds apart)
the label reads the default `复制提示` again: each click schedules its own
un-cancelled reset timer, and the last of them fires at or before `T`. -/
theorem copy_label_reverts (clicks : List ℕ) (T : ℕ)
    (h : ∀ c ∈ clicks, c + 2000 ≤ T) :
    labelAt clicks T = defaultLabel ∧
    ∀ c ∈ clicks, labelAt clicks c = copiedLabel :=
  ⟨labelAt_after_resets clicks T h, fun c hc => labelAt_click clicks c hc⟩

/-- Concrete instance of C7: clicks at 0 ms and 1000 ms (less than
2 seconds apart); each click shows the copied label, and at 3000 ms —
2 seconds after the last click — the label is the default again. -/
theorem copy_label_reverts_witness :
    labelAt [0, 1000] 3000 = defaultLabel ∧
    ∀ c ∈ [0, 1000], labelAt [0, 1000] c = copiedLabel :=
  copy_label_reverts [0, 1000] 3000 (by decide)

end Darkroom
